import Mathlib

/-!
Shallow embedding of `src/require_gpu/cli.py` (the "Availability Waiter" CLI).

Modelling conventions:
* A GPU record keeps only the fields the program reads: its `index` and the
  list of attached process descriptors (the code only tests emptiness, so the
  descriptors are opaque naturals).
* A query snapshot is the ordered list of GPU records, mirroring iteration
  over a `GPUStatCollection`.  The collection's Python truthiness is length
  based (`__len__`), so an empty snapshot is falsy, like the empty list.
* Side effects (stderr/stdout prints, sleeping, mail, spawning the child
  command) are reified as an ordered list of `Event`s; text rendered by
  external facilities (gpustat's `repr`, the mail transport) is represented by
  events carrying the structured inputs rather than a rendered string.
* The wait loop is unbounded in the source; it is embedded with explicit fuel,
  `none` meaning the loop is still running after `fuel` iterations.
* `random.sample` draws without replacement; its randomness is an explicit
  list of chosen positions `pos`, constrained by `sampleOk`.
* The poll interval is a `ℚ` stand-in for the Python float; it only scales the
  sleep duration and never influences control flow.
* The requested count `n` is a `Nat`: `argparse` registers the option string
  `-1` (`--once`), which makes it treat negative-number-like arguments as
  option strings, so a negative `n` is not producible from the CLI.
-/

/-- A GPU record: its index and the attached process descriptors. -/
structure GPU where
  index : Nat
  processes : List Nat
deriving DecidableEq, Repr

/-- `available_gpus(query)`: the records whose process list is empty
(`len(gpu.processes) == 0`). -/
def available_gpus (query : List GPU) : List GPU :=
  query.filter (fun gpu => gpu.processes.length == 0)

/-- Parsed CLI options (section 3 of the design); `command = []` models an
absent `--command` (both `None` and `[]` are falsy in the source's test). -/
structure Options where
  n : Nat
  email : List String
  command : List String
  interval : ℚ
  quiet : Bool
  first : Bool
  once : Bool
deriving DecidableEq, Repr

/-- Observable side effects of one run, in program order. -/
inductive Event where
  /-- a line printed to standard output -/
  | out (s : String)
  /-- a plain text line printed to standard error -/
  | err (s : String)
  /-- `print(querytostring(query), file=sys.stderr)`: the snapshot rendered
      by the external `repr` facility onto standard error -/
  | errReport (query : List GPU)
  /-- the one-time waiting notice on standard error, carrying the target
      count, the interval and the snapshot it renders -/
  | waitStatus (n : Nat) (interval : ℚ) (query : List GPU)
  /-- `sleep(60 * interval)` -/
  | sleepFor (seconds : ℚ)
  /-- `mail_query(query, recipients, suffix)`: first notification mail -/
  | sendMail (recipients : List String) (query : List GPU) (suffix : String)
  /-- the second mail sent after the child command finished, carrying the
      inputs of its text (command, return code, selection) -/
  | sendMailResult (recipients : List String) (cmd : List String)
      (returncode : Int) (ids : String)
  /-- `subprocess.run(cmd, shell=?, env=env)`: spawning the child command
      with the explicitly passed environment mapping -/
  | run (cmd : List String) (shell : Bool) (env : List (String × String))
deriving DecidableEq, Repr

/-! ## Selector -/

/-- Validity of the positions a `random.sample` call draws: exactly `k`
pairwise-distinct positions into a population of length `popLen`.  Any run of
the Python sampler satisfies this. -/
def sampleOk (pos : List Nat) (k popLen : Nat) : Prop :=
  pos.length = k ∧ pos.Nodup ∧ ∀ i ∈ pos, i < popLen

instance (pos : List Nat) (k popLen : Nat) : Decidable (sampleOk pos k popLen) := by
  unfold sampleOk; infer_instance

/-- `random.sample(pop, k)`: raises `ValueError` unless `0 <= k <= len(pop)`
(the lower bound is vacuous over `Nat`); otherwise returns the population
elements at the drawn positions `pos`. -/
def sample (pop : List Nat) (k : Nat) (pos : List Nat) : Except String (List Nat) :=
  if k ≤ pop.length then
    Except.ok (pos.filterMap (fun i => pop[i]?))
  else
    Except.error "Sample larger than population or is negative"

/-- Line 90 of the source:
`ids = raw_ids[:options.n] if options.first else sample(raw_ids, options.n)`. -/
def selectIds (raw_ids : List Nat) (n : Nat) (first : Bool) (pos : List Nat) :
    Except String (List Nat) :=
  if first then Except.ok (raw_ids.take n) else sample raw_ids n pos

/-! ## Environment handling for the child command -/

/-- Python `dict` assignment `env[k] = v` on an association list: replace the
binding if the key is present, else append it. -/
def envSet (env : List (String × String)) (k v : String) : List (String × String) :=
  if env.any (fun p => p.1 = k) then
    env.map (fun p => if p.1 = k then (k, v) else p)
  else
    env ++ [(k, v)]

/-- Python `dict` lookup `env.get(k)` on an association list. -/
def envGet (env : List (String × String)) (k : String) : Option String :=
  (env.find? (fun p => p.1 = k)).map (fun p => p.2)

/-- Lines 97–99 of `success`:
`env = environ.copy(); env['CUDA_VISIBLE_DEVICES'] = ids_string`, with the
global environment threaded as explicit state.  Returns the pair
(global environment after these lines, mapping passed as `env=` to
`subprocess.run`): the copy means the global environment passes through
unchanged while the child receives the overridden copy. -/
def commandEnvSetup (environ : List (String × String)) (ids_string : String) :
    List (String × String) × List (String × String) :=
  let env := envSet environ "CUDA_VISIBLE_DEVICES" ids_string
  (environ, env)

/-! ## success -/

/-- A Python call that either returns normally or raises. -/
inductive PyResult (α : Type) where
  | ok (a : α)
  | exn (msg : String)
deriving DecidableEq, Repr

/-- `success(query, options)`: report, select, print the export line, mail,
run the child command.  `pos` is the sampler's randomness, `childRet` the
child command's return code, `environ` the ambient process environment.
Returns the emitted events and either the value the Python function returns
(`none` when it falls off the end without running a command, i.e. Python
`None`, else `some returncode`) or the raised exception. -/
def success (query : List GPU) (options : Options) (pos : List Nat)
    (childRet : Int) (environ : List (String × String)) :
    List Event × PyResult (Option Int) :=
  let pre : List Event := if options.quiet then [] else [Event.errReport query]
  let raw_ids := (available_gpus query).map GPU.index
  match selectIds raw_ids options.n options.first pos with
  | Except.error e => (pre, PyResult.exn e)
  | Except.ok ids =>
    let ids_string := String.intercalate "," (ids.map toString)
    let exportLine := "export CUDA_VISIBLE_DEVICES=" ++ ids_string
    let ev1 := pre ++ [Event.out exportLine]
    let ev2 := ev1 ++
      (if options.email ≠ [] then [Event.sendMail options.email query exportLine] else [])
    if options.command ≠ [] then
      let env := (commandEnvSetup environ ids_string).2
      let shell := options.command.length == 1
      let ev3 := ev2 ++ [Event.run options.command shell env]
      let ev4 := ev3 ++
        (if options.email ≠ [] then
          [Event.sendMailResult options.email options.command childRet ids_string]
         else [])
      (ev4, PyResult.ok (some childRet))
    else
      (ev2, PyResult.ok none)

/-! ## Wait loop -/

/-- Outcome of `wait_for_gpus` as observed by `main`'s `try` block. -/
inductive WaitOutcome where
  | ok (query : List GPU)
  | noResult
  | interrupted
deriving DecidableEq, Repr

/-- The body of the `while True` loop of `wait_for_gpus`, from iteration `i`
with `fuel` iterations left (`none` = still looping when the fuel runs out).
`queries i` is the snapshot `GPUStatCollection.new_query()` yields on
iteration `i`; `interruptAt = some j` delivers a `KeyboardInterrupt` during
the sleep of iteration `j`.  Returns the outcome and the events emitted
(waiting notice at the first failed iteration, then one sleep per retry). -/
def wait_from (queries : Nat → List GPU) (n : Nat) (interval : ℚ) (once : Bool)
    (interruptAt : Option Nat) : Nat → Nat → Option (WaitOutcome × List Event)
  | _, 0 => none
  | i, fuel + 1 =>
    let query := queries i
    let gpus := available_gpus query
    if n ≤ gpus.length then
      some (WaitOutcome.ok query, [])
    else if once then
      some (WaitOutcome.noResult, [])
    else
      let statusEv : List Event :=
        if i = 0 then [Event.waitStatus n interval query] else []
      if interruptAt = some i then
        some (WaitOutcome.interrupted, statusEv)
      else
        (wait_from queries n interval once interruptAt (i + 1) fuel).map
          (fun res => (res.1, statusEv ++ [Event.sleepFor (60 * interval)] ++ res.2))

/-- `wait_for_gpus(n, interval, once)`, started at iteration 0. -/
def wait_for_gpus (queries : Nat → List GPU) (n : Nat) (interval : ℚ)
    (once : Bool) (interruptAt : Option Nat) (fuel : Nat) :
    Option (WaitOutcome × List Event) :=
  wait_from queries n interval once interruptAt 0 fuel

/-! ## main -/

/-- Python `a or b` on `success`'s return value (`None` or an `int`). -/
def pyOr (v : Option Int) (d : Int) : Int :=
  match v with
  | none => d
  | some x => if x = 0 then d else x

/-- A terminated run: the exit code given to `sys.exit`, or an uncaught
exception, together with all events emitted. -/
inductive RunResult where
  | exit (code : Int) (events : List Event)
  | crash (msg : String) (events : List Event)
deriving DecidableEq, Repr

/-- `main()` after argument parsing: wait, catch `KeyboardInterrupt` into
exit code 3, test the returned query's truthiness (a snapshot with no GPU
records is falsy, like `None`), and on success run `success` and exit with
`result or 0`.  `none` = the wait loop outran its fuel. -/
def mainFlow (queries : Nat → List GPU) (options : Options)
    (interruptAt : Option Nat) (pos : List Nat) (childRet : Int)
    (environ : List (String × String)) (fuel : Nat) : Option RunResult :=
  match wait_for_gpus queries options.n options.interval options.once interruptAt fuel with
  | none => none
  | some (WaitOutcome.interrupted, evs) =>
    some (RunResult.exit 3 (evs ++ [Event.err "Cancelled."]))
  | some (WaitOutcome.noResult, evs) =>
    some (RunResult.exit 127 evs)
  | some (WaitOutcome.ok query, evs) =>
    if query = [] then
      some (RunResult.exit 127 evs)
    else
      match success query options pos childRet environ with
      | (sev, PyResult.exn e) => some (RunResult.crash e (evs ++ sev))
      | (sev, PyResult.ok r) => some (RunResult.exit (pyOr r 0) (evs ++ sev))

/-! ## Availability filter (claim C1 territory) -/

theorem available_gpus_sublist (query : List GPU) :
    (available_gpus query).Sublist query :=
  List.filter_sublist query

theorem mem_available_gpus (query : List GPU) (g : GPU) :
    g ∈ available_gpus query ↔ g ∈ query ∧ g.processes = [] := by
  simp [available_gpus, List.mem_filter, List.length_eq_zero]

/-! ## Sampler lemmas -/

theorem filterMap_getElem_length (pop pos : List Nat)
    (h : ∀ i ∈ pos, i < pop.length) :
    (pos.filterMap (fun i => pop[i]?)).length = pos.length := by
  induction pos with
  | nil => simp
  | cons a t ih =>
    have ha : a < pop.length := h a (List.mem_cons_self a t)
    have hsome : pop[a]? = some pop[a] := List.getElem?_eq_getElem ha
    simp only [List.filterMap_cons, hsome, List.length_cons]
    rw [ih (fun i hi => h i (List.mem_cons_of_mem a hi))]

theorem filterMap_getElem_mem (pop pos : List Nat) (x : Nat)
    (hx : x ∈ pos.filterMap (fun i => pop[i]?)) : x ∈ pop := by
  rcases List.mem_filterMap.mp hx with ⟨i, _, hi⟩
  have hlt : i < pop.length := by
    by_contra hge
    rw [List.getElem?_eq_none (Nat.le_of_not_lt hge)] at hi
    exact Option.noConfusion hi
  have : pop[i] = x := by
    have := List.getElem?_eq_getElem hlt
    rw [this] at hi
    exact Option.some.inj hi
  exact this ▸ List.getElem_mem hlt

theorem filterMap_getElem_nodup (pop pos : List Nat) (hpop : pop.Nodup)
    (hpos : pos.Nodup) (hb : ∀ i ∈ pos, i < pop.length) :
    (pos.filterMap (fun i => pop[i]?)).Nodup := by
  induction pos with
  | nil => simp
  | cons a t ih =>
    have ha : a < pop.length := hb a (List.mem_cons_self a t)
    have hsome : pop[a]? = some pop[a] := List.getElem?_eq_getElem ha
    have hb' : ∀ i ∈ t, i < pop.length := fun i hi => hb i (List.mem_cons_of_mem a hi)
    simp only [List.filterMap_cons, hsome]
    refine List.nodup_cons.mpr ⟨?_, ih (List.Nodup.of_cons hpos) hb'⟩
    intro hmem
    rcases List.mem_filterMap.mp hmem with ⟨j, hjt, hj⟩
    have hj' : j < pop.length := hb' j hjt
    have : pop[j] = pop[a] := by
      have := List.getElem?_eq_getElem hj'
      rw [this] at hj
      exact Option.some.inj hj
    have : j = a := (List.Nodup.getElem_inj_iff hpop).mp this
    exact (List.nodup_cons.mp hpos).1 (this ▸ hjt)

/-! ## Wait-loop lemmas -/

/-- When the wait loop returns a snapshot, that snapshot passed the
availability test: `n` is at most its available count. -/
theorem wait_from_ok_le (queries : Nat → List GPU) (n : Nat) (interval : ℚ)
    (once : Bool) (interruptAt : Option Nat) :
    ∀ (fuel i : Nat) (q : List GPU) (evs : List Event),
      wait_from queries n interval once interruptAt i fuel
        = some (WaitOutcome.ok q, evs) →
      n ≤ (available_gpus q).length := by
  intro fuel
  induction fuel with
  | zero => intro i q evs h; exact Option.noConfusion h
  | succ fuel ih =>
    intro i q evs h
    rw [wait_from] at h
    by_cases h1 : n ≤ (available_gpus (queries i)).length
    · rw [if_pos h1] at h
      have hq := congrArg Prod.fst (Option.some.inj h)
      exact (WaitOutcome.ok.inj hq) ▸ h1
    · rw [if_neg h1] at h
      by_cases h2 : once = true
      · rw [if_pos h2] at h
        exact absurd (congrArg Prod.fst (Option.some.inj h)) (by simp)
      · rw [if_neg h2] at h
        by_cases h3 : interruptAt = some i
        · rw [if_pos h3] at h
          exact absurd (congrArg Prod.fst (Option.some.inj h)) (by simp)
        · rw [if_neg h3] at h
          rcases Option.map_eq_some'.mp h with ⟨⟨r, evs'⟩, hrec, heq⟩
          have hr : r = WaitOutcome.ok q := congrArg Prod.fst heq
          exact ih (i + 1) q evs' (hr ▸ hrec)

/-- The wait loop itself never prints to standard output. -/
theorem wait_from_no_stdout (queries : Nat → List GPU) (n : Nat) (interval : ℚ)
    (once : Bool) (interruptAt : Option Nat) :
    ∀ (fuel i : Nat) (r : WaitOutcome) (evs : List Event),
      wait_from queries n interval once interruptAt i fuel = some (r, evs) →
      ∀ s, Event.out s ∉ evs := by
  intro fuel
  induction fuel with
  | zero => intro i r evs h; exact Option.noConfusion h
  | succ fuel ih =>
    intro i r evs h s
    rw [wait_from] at h
    by_cases h1 : n ≤ (available_gpus (queries i)).length
    · rw [if_pos h1] at h
      injection h with h'
      injection h' with hr hevs
      simp [← hevs]
    · rw [if_neg h1] at h
      by_cases h2 : once = true
      · rw [if_pos h2] at h
        injection h with h'
        injection h' with hr hevs
        simp [← hevs]
      · rw [if_neg h2] at h
        by_cases h3 : interruptAt = some i
        · rw [if_pos h3] at h
          injection h with h'
          injection h' with hr hevs
          intro hmem
          rw [← hevs] at hmem
          by_cases h0 : i = 0 <;> simp [h0] at hmem
        · rw [if_neg h3] at h
          rcases Option.map_eq_some'.mp h with ⟨⟨r', evs'⟩, hrec, heq⟩
          injection heq with hr hevs
          intro hmem
          rw [← hevs] at hmem
          rcases List.mem_append.mp hmem with hmem' | hmem'
          · rcases List.mem_append.mp hmem' with hmem'' | hmem''
            · by_cases h0 : i = 0 <;> simp [h0] at hmem''
            · simp at hmem''
          · exact ih (i + 1) r' evs' hrec s hmem'

/-! ## Environment lemmas -/

theorem envGet_cons (p : String × String) (t : List (String × String))
    (key : String) :
    envGet (p :: t) key = if p.1 = key then some p.2 else envGet t key := by
  rw [envGet]
  by_cases hp : p.1 = key
  · rw [List.find?_cons_of_pos _ (by simpa using hp), if_pos hp]
    rfl
  · rw [List.find?_cons_of_neg _ (by simpa using hp), if_neg hp]
    rfl

theorem envGet_map_replace_same (env : List (String × String)) (k v : String)
    (h : env.any (fun p => p.1 = k)) :
    envGet (env.map (fun p => if p.1 = k then (k, v) else p)) k = some v := by
  induction env with
  | nil => simp at h
  | cons p t ih =>
    by_cases hp : p.1 = k
    · rw [List.map_cons, if_pos hp, envGet_cons, if_pos rfl]
    · have ht : t.any (fun q => q.1 = k) := by simpa [List.any_cons, hp] using h
      rw [List.map_cons, if_neg hp, envGet_cons, if_neg hp]
      exact ih ht

theorem envGet_map_replace_other (env : List (String × String)) (k v key : String)
    (hne : key ≠ k) :
    envGet (env.map (fun p => if p.1 = k then (k, v) else p)) key = envGet env key := by
  induction env with
  | nil => rfl
  | cons p t ih =>
    by_cases hp : p.1 = k
    · have hkk : ¬(k = key) := fun h => hne h.symm
      have hkey : ¬(p.1 = key) := fun h => hne (h.symm.trans hp)
      rw [List.map_cons, if_pos hp, envGet_cons, envGet_cons, if_neg hkk, if_neg hkey]
      exact ih
    · rw [List.map_cons, if_neg hp, envGet_cons, envGet_cons]
      by_cases hk : p.1 = key
      · rw [if_pos hk, if_pos hk]
      · rw [if_neg hk, if_neg hk]
        exact ih

theorem envGet_append_single_same (env : List (String × String)) (k v : String)
    (h : ¬env.any (fun p => p.1 = k)) :
    envGet (env ++ [(k, v)]) k = some v := by
  induction env with
  | nil => rw [List.nil_append, envGet_cons, if_pos rfl]
  | cons p t ih =>
    have h' : ¬(p.1 = k) ∧ ¬(t.any (fun q => q.1 = k)) = true := by
      simpa [List.any_cons, not_or] using h
    rw [List.cons_append, envGet_cons, if_neg h'.1]
    exact ih h'.2

theorem envGet_append_single_other (env : List (String × String)) (k v key : String)
    (hne : key ≠ k) :
    envGet (env ++ [(k, v)]) key = envGet env key := by
  induction env with
  | nil =>
    rw [List.nil_append, envGet_cons, if_neg (fun h => hne h.symm)]
  | cons p t ih =>
    rw [List.cons_append, envGet_cons, envGet_cons]
    by_cases hk : p.1 = key
    · rw [if_pos hk, if_pos hk]
    · rw [if_neg hk, if_neg hk]
      exact ih

theorem envGet_envSet_same (env : List (String × String)) (k v : String) :
    envGet (envSet env k v) k = some v := by
  rw [envSet]
  by_cases hany : env.any (fun p => p.1 = k)
  · rw [if_pos hany]
    exact envGet_map_replace_same env k v hany
  · rw [if_neg hany]
    exact envGet_append_single_same env k v hany

theorem envGet_envSet_other (env : List (String × String)) (k v key : String)
    (hne : key ≠ k) :
    envGet (envSet env k v) key = envGet env key := by
  rw [envSet]
  by_cases hany : env.any (fun p => p.1 = k)
  · rw [if_pos hany]
    exact envGet_map_replace_other env k v key hne
  · rw [if_neg hany]
    exact envGet_append_single_other env k v key hne

theorem pyOr_some (x : Int) : pyOr (some x) 0 = x := by
  rw [pyOr]
  by_cases hx : x = 0
  · rw [if_pos hx, hx]
  · rw [if_neg hx]

/-! ## Concrete fixtures -/

/-- A GPU with no attached processes. -/
def gpuFree (i : Nat) : GPU := ⟨i, []⟩

/-- A GPU with one attached process. -/
def gpuBusy (i : Nat) : GPU := ⟨i, [7]⟩

/-- The spec's end-to-end snapshot: GPUs 0,1,3 free, GPU 2 busy. -/
def exampleQuery : List GPU := [gpuFree 0, gpuFree 1, gpuBusy 2, gpuFree 3]

/-- Options for the end-to-end `first` example: `n = 2`, `--first`, defaults
otherwise. -/
def exampleOptions : Options :=
  { n := 2, email := [], command := [], interval := 5,
    quiet := false, first := true, once := false }

/-- C1: the Availability Filter returns exactly the GPU records whose
attached-process list is empty, as an order-preserving subsequence of the
snapshot; being a pure Lean function of the snapshot, it has no side
effects on it. -/
theorem availability_filter_exact (query : List GPU) :
    (available_gpus query).Sublist query ∧
      ∀ g, g ∈ available_gpus query ↔ g ∈ query ∧ g.processes = [] :=
  ⟨available_gpus_sublist query, mem_available_gpus query⟩

/-- C2: whenever the first query snapshot already has at least `n` available
GPUs, the Wait Loop returns that snapshot on its first iteration with no
events at all — in particular no `sleepFor` — for every interval, one-shot
flag and interrupt schedule. -/
theorem wait_loop_immediate_success (queries : Nat → List GPU) (n : Nat)
    (interval : ℚ) (once : Bool) (interruptAt : Option Nat) (fuel : Nat)
    (h : n ≤ (available_gpus (queries 0)).length) :
    wait_for_gpus queries n interval once interruptAt (fuel + 1)
      = some (WaitOutcome.ok (queries 0), []) := by
  rw [wait_for_gpus, wait_from, if_pos h]

theorem wait_loop_immediate_success_witness :
    1 ≤ (available_gpus ((fun _ => [gpuFree 0]) 0)).length ∧
    wait_for_gpus (fun _ => [gpuFree 0]) 1 5 true (some 0) 1
      = some (WaitOutcome.ok [gpuFree 0], []) :=
  ⟨by decide,
   wait_loop_immediate_success (fun _ => [gpuFree 0]) 1 5 true (some 0) 0 (by decide)⟩

/-- C3: in one-shot mode with fewer than `n` GPUs available in the first
snapshot, the Wait Loop returns `noResult` with no events (so no sleep, for
any interval), and `main` exits with code 127 having emitted no events at
all: no export line, no selection, no notification. -/
theorem once_insufficient_exits_127 (queries : Nat → List GPU)
    (options : Options) (interruptAt : Option Nat) (pos : List Nat)
    (childRet : Int) (environ : List (String × String)) (fuel : Nat)
    (honce : options.once = true)
    (h : (available_gpus (queries 0)).length < options.n) :
    wait_for_gpus queries options.n options.interval options.once interruptAt
        (fuel + 1) = some (WaitOutcome.noResult, []) ∧
    mainFlow queries options interruptAt pos childRet environ (fuel + 1)
      = some (RunResult.exit 127 []) := by
  have hw : wait_for_gpus queries options.n options.interval options.once
      interruptAt (fuel + 1) = some (WaitOutcome.noResult, []) := by
    rw [wait_for_gpus, wait_from, if_neg (Nat.not_le_of_lt h), honce, if_pos rfl]
  exact ⟨hw, by rw [mainFlow, hw]⟩

theorem once_insufficient_exits_127_witness :
    ({ n := 5, email := [], command := [], interval := 5, quiet := false,
       first := false, once := true } : Options).once = true ∧
    (available_gpus ((fun _ => [gpuFree 0, gpuFree 1]) 0)).length
      < ({ n := 5, email := [], command := [], interval := 5, quiet := false,
           first := false, once := true } : Options).n ∧
    mainFlow (fun _ => [gpuFree 0, gpuFree 1])
        { n := 5, email := [], command := [], interval := 5, quiet := false,
          first := false, once := true } none [] 0 [] 1
      = some (RunResult.exit 127 []) :=
  ⟨rfl, by decide,
   (once_insufficient_exits_127 (fun _ => [gpuFree 0, gpuFree 1])
      { n := 5, email := [], command := [], interval := 5, quiet := false,
        first := false, once := true } none [] 0 [] 0 rfl (by decide)).2⟩

/-- C7: a `KeyboardInterrupt` surfacing from the Wait Loop makes `main`
print the cancellation notice on standard error and exit with code 3,
which is distinct from the code 127 used for one-shot insufficiency. -/
theorem interrupt_exits_3 (queries : Nat → List GPU) (options : Options)
    (interruptAt : Option Nat) (pos : List Nat) (childRet : Int)
    (environ : List (String × String)) (fuel : Nat) (evs : List Event)
    (hw : wait_for_gpus queries options.n options.interval options.once
        interruptAt fuel = some (WaitOutcome.interrupted, evs)) :
    mainFlow queries options interruptAt pos childRet environ fuel
      = some (RunResult.exit 3 (evs ++ [Event.err "Cancelled."])) ∧
    Event.err "Cancelled." ∈ evs ++ [Event.err "Cancelled."] ∧
    (3 : Int) ≠ 127 := by
  refine ⟨by rw [mainFlow, hw], by simp, by decide⟩

theorem interrupt_exits_3_witness :
    mainFlow (fun _ => [gpuBusy 0])
        { n := 1, email := [], command := [], interval := 5, quiet := false,
          first := false, once := false } (some 0) [] 0 [] 1
      = some (RunResult.exit 3
          ([Event.waitStatus 1 5 [gpuBusy 0]] ++ [Event.err "Cancelled."])) ∧
    Event.err "Cancelled."
      ∈ [Event.waitStatus 1 5 [gpuBusy 0]] ++ [Event.err "Cancelled."] ∧
    (3 : Int) ≠ 127 :=
  interrupt_exits_3 (fun _ => [gpuBusy 0])
    { n := 1, email := [], command := [], interval := 5, quiet := false,
      first := false, once := false } (some 0) [] 0 [] 1
    [Event.waitStatus 1 5 [gpuBusy 0]] (by decide)

/-- C9: whenever the Wait Loop hands back a snapshot, the requested count is
at most the number of available GPU indices in it, so `random.sample` on
that population succeeds for every draw — its "Sample larger than
population" branch is unreachable — and a valid draw yields exactly `n`
indices. -/
theorem sample_error_unreachable (queries : Nat → List GPU) (n : Nat)
    (interval : ℚ) (once : Bool) (interruptAt : Option Nat) (fuel : Nat)
    (q : List GPU) (evs : List Event)
    (hw : wait_for_gpus queries n interval once interruptAt fuel
        = some (WaitOutcome.ok q, evs)) :
    n ≤ ((available_gpus q).map GPU.index).length ∧
    ∀ pos, ∃ ids,
      sample ((available_gpus q).map GPU.index) n pos = Except.ok ids ∧
      (sampleOk pos n ((available_gpus q).map GPU.index).length →
        ids.length = n) := by
  have hle : n ≤ (available_gpus q).length :=
    wait_from_ok_le queries n interval once interruptAt fuel 0 q evs hw
  have hlen : ((available_gpus q).map GPU.index).length
      = (available_gpus q).length := List.length_map _ _
  refine ⟨hlen ▸ hle, fun pos => ⟨_, by rw [sample, if_pos (hlen ▸ hle)], ?_⟩⟩
  intro hok
  rw [filterMap_getElem_length _ _ hok.2.2, hok.1]

theorem sample_error_unreachable_witness :
    wait_for_gpus (fun _ => [gpuFree 4, gpuFree 2]) 2 5 false none 1
      = some (WaitOutcome.ok [gpuFree 4, gpuFree 2], []) ∧
    2 ≤ ((available_gpus [gpuFree 4, gpuFree 2]).map GPU.index).length ∧
    ∀ pos, ∃ ids,
      sample ((available_gpus [gpuFree 4, gpuFree 2]).map GPU.index) 2 pos
        = Except.ok ids ∧
      (sampleOk pos 2
          ((available_gpus [gpuFree 4, gpuFree 2]).map GPU.index).length →
        ids.length = 2) :=
  ⟨by decide,
   sample_error_unreachable (fun _ => [gpuFree 4, gpuFree 2]) 2 5 false none 1
     [gpuFree 4, gpuFree 2] [] (by decide)⟩

/-- C10: if the Wait Loop hands back a snapshot with no GPU records at all —
which forces the requested count to be 0, since the snapshot passed the
availability test — `main`'s truthiness check treats it like `None`: exit
code 127 and no line on standard output. -/
theorem empty_snapshot_exits_127 (queries : Nat → List GPU)
    (options : Options) (interruptAt : Option Nat) (pos : List Nat)
    (childRet : Int) (environ : List (String × String)) (fuel : Nat)
    (evs : List Event)
    (hw : wait_for_gpus queries options.n options.interval options.once
        interruptAt fuel = some (WaitOutcome.ok [], evs)) :
    options.n = 0 ∧
    mainFlow queries options interruptAt pos childRet environ fuel
      = some (RunResult.exit 127 evs) ∧
    ∀ s, Event.out s ∉ evs := by
  have hle : options.n ≤ (available_gpus []).length :=
    wait_from_ok_le queries options.n options.interval options.once
      interruptAt fuel 0 [] evs hw
  have hn : options.n = 0 := Nat.le_zero.mp (by simpa [available_gpus] using hle)
  refine ⟨hn, ?_, ?_⟩
  · rw [mainFlow, hw]
    rfl
  · intro s
    exact wait_from_no_stdout queries options.n options.interval options.once
      interruptAt fuel 0 (WaitOutcome.ok []) evs hw s

theorem empty_snapshot_exits_127_witness :
    ({ n := 0, email := [], command := [], interval := 5, quiet := false,
       first := false, once := false } : Options).n = 0 ∧
    mainFlow (fun _ => ([] : List GPU))
        { n := 0, email := [], command := [], interval := 5, quiet := false,
          first := false, once := false } none [] 0 [] 1
      = some (RunResult.exit 127 []) ∧
    ∀ s, Event.out s ∉ ([] : List Event) :=
  empty_snapshot_exits_127 (fun _ => ([] : List GPU))
    { n := 0, email := [], command := [], interval := 5, quiet := false,
      first := false, once := false } none [] 0 [] 1 [] (by decide)

/-- C4: on a snapshot whose GPU indices are distinct (as every gpustat
snapshot is: one record per physical GPU), any successful selection — by
position slice or by a without-replacement draw — has at most `n` indices,
each drawn from the snapshot's available indices, and in random mode the
returned indices are pairwise distinct. -/
theorem selector_bounds (query : List GPU) (n : Nat) (first : Bool)
    (pos ids : List Nat)
    (hnodup : (query.map GPU.index).Nodup)
    (hpos : first = false →
      sampleOk pos n ((available_gpus query).map GPU.index).length)
    (hsel : selectIds ((available_gpus query).map GPU.index) n first pos
        = Except.ok ids) :
    ids.length ≤ n ∧
    (∀ i ∈ ids, i ∈ (available_gpus query).map GPU.index) ∧
    (first = false → ids.Nodup) := by
  have hraw : ((available_gpus query).map GPU.index).Nodup :=
    hnodup.sublist ((available_gpus_sublist query).map GPU.index)
  cases first with
  | true =>
    rw [selectIds, if_pos rfl] at hsel
    have hids : ids = ((available_gpus query).map GPU.index).take n :=
      (Except.ok.inj hsel).symm
    subst hids
    refine ⟨List.length_take_le n _, ?_, ?_⟩
    · intro i hi
      exact (List.take_sublist n _).subset hi
    · intro hfalse
      exact Bool.noConfusion hfalse
  | false =>
    have hok := hpos rfl
    rw [selectIds, if_neg (by simp), sample] at hsel
    by_cases hle : n ≤ ((available_gpus query).map GPU.index).length
    · rw [if_pos hle] at hsel
      have hids : ids = pos.filterMap
          (fun i => ((available_gpus query).map GPU.index)[i]?) :=
        (Except.ok.inj hsel).symm
      subst hids
      refine ⟨?_, ?_, ?_⟩
      · rw [filterMap_getElem_length _ _ hok.2.2, hok.1]
      · intro i hi
        exact filterMap_getElem_mem _ _ i hi
      · intro _
        exact filterMap_getElem_nodup _ _ hraw hok.2.1 hok.2.2
    · rw [if_neg hle] at hsel
      exact Except.noConfusion hsel

theorem selector_bounds_witness :
    ([gpuFree 0, gpuFree 1].map GPU.index).Nodup ∧
    (false = false →
      sampleOk [1] 1 ((available_gpus [gpuFree 0, gpuFree 1]).map GPU.index).length) ∧
    selectIds ((available_gpus [gpuFree 0, gpuFree 1]).map GPU.index) 1 false [1]
      = Except.ok [1] ∧
    (([1] : List Nat).length ≤ 1 ∧
      (∀ i ∈ ([1] : List Nat),
        i ∈ (available_gpus [gpuFree 0, gpuFree 1]).map GPU.index) ∧
      (false = false → ([1] : List Nat).Nodup)) :=
  ⟨by decide, fun _ => by decide, rfl,
   selector_bounds [gpuFree 0, gpuFree 1] 1 false [1] [1]
     (by decide) (fun _ => by decide) rfl⟩

/-- C5: with the `first` flag the Selector ignores the randomness source
entirely (hence repeated calls agree) and takes the first `n` available
indices in snapshot order; on the spec's snapshot `[0,1,2,3]` with only
GPU 2 busy and `n = 2`, the selection is `[0, 1]` and `success` prints
`export CUDA_VISIBLE_DEVICES=0,1` on standard output. -/
theorem first_mode_deterministic_example :
    (∀ (query : List GPU) (n : Nat) (pos pos' : List Nat),
      selectIds ((available_gpus query).map GPU.index) n true pos
        = selectIds ((available_gpus query).map GPU.index) n true pos') ∧
    selectIds ((available_gpus exampleQuery).map GPU.index) 2 true []
      = Except.ok [0, 1] ∧
    success exampleQuery exampleOptions [] 0 []
      = ([Event.errReport exampleQuery,
          Event.out "export CUDA_VISIBLE_DEVICES=0,1"], PyResult.ok none) :=
  ⟨fun _ _ _ _ => rfl, rfl, rfl⟩

/-- C6: on the success path, when a command is configured it is spawned
(through the shell exactly when given as a single string) with an
environment whose `CUDA_VISIBLE_DEVICES` is the comma-joined selection, and
the process exit code equals the child's return code; with no command
configured the exit code is 0. -/
theorem command_exit_code (queries : Nat → List GPU) (options : Options)
    (interruptAt : Option Nat) (pos : List Nat) (childRet : Int)
    (environ : List (String × String)) (fuel : Nat) (q : List GPU)
    (evs : List Event) (ids : List Nat)
    (hw : wait_for_gpus queries options.n options.interval options.once
        interruptAt fuel = some (WaitOutcome.ok q, evs))
    (hq : q ≠ [])
    (hsel : selectIds ((available_gpus q).map GPU.index) options.n
        options.first pos = Except.ok ids) :
    ∃ code events,
      mainFlow queries options interruptAt pos childRet environ fuel
        = some (RunResult.exit code events) ∧
      (options.command ≠ [] →
        code = childRet ∧
        Event.run options.command (options.command.length == 1)
          (envSet environ "CUDA_VISIBLE_DEVICES"
            (String.intercalate "," (ids.map toString))) ∈ events ∧
        envGet (envSet environ "CUDA_VISIBLE_DEVICES"
            (String.intercalate "," (ids.map toString)))
          "CUDA_VISIBLE_DEVICES"
          = some (String.intercalate "," (ids.map toString))) ∧
      (options.command = [] → code = 0) := by
  simp only [mainFlow, hw, if_neg hq, success, hsel, commandEnvSetup]
  by_cases hc : options.command = []
  · simp only [hc, ne_eq, not_true_eq_false, if_false, reduceIte, pyOr]
    refine ⟨_, _, rfl, fun hcc => hcc.elim, fun _ => rfl⟩
  · simp only [ne_eq, hc, not_false_eq_true, if_true, reduceIte]
    refine ⟨_, _, rfl, ?_, fun h => h.elim⟩
    intro _
    refine ⟨pyOr_some childRet, ?_, envGet_envSet_same environ _ _⟩
    simp [List.mem_append]

/-- Options for the end-to-end command example: `"echo ok"` as a single
string, `n = 1`, first mode. -/
def cmdOptions : Options :=
  { n := 1, email := [], command := ["echo ok"], interval := 5,
    quiet := true, first := true, once := true }

theorem command_exit_code_witness :
    ∃ code events,
      mainFlow (fun _ => [gpuFree 0]) cmdOptions none [] 0 [] 1
        = some (RunResult.exit code events) ∧
      (cmdOptions.command ≠ [] →
        code = 0 ∧
        Event.run cmdOptions.command (cmdOptions.command.length == 1)
          (envSet [] "CUDA_VISIBLE_DEVICES"
            (String.intercalate "," (([0] : List Nat).map toString))) ∈ events ∧
        envGet (envSet [] "CUDA_VISIBLE_DEVICES"
            (String.intercalate "," (([0] : List Nat).map toString)))
          "CUDA_VISIBLE_DEVICES"
          = some (String.intercalate "," (([0] : List Nat).map toString))) ∧
      (cmdOptions.command = [] → code = 0) :=
  command_exit_code (fun _ => [gpuFree 0]) cmdOptions none [] 0 [] 1
    [gpuFree 0] [] [0] rfl (by decide) rfl

/-- C8, as the claim states it, is false of the code: after the environment
setup lines the parent's ambient environment still lacks the selection
variable — here, starting from an empty environment and selection `"0"` —
while the explicitly copied-and-overridden mapping handed to
`subprocess.run` carries it. -/
theorem ambient_env_not_mutated :
    envGet (commandEnvSetup [] "0").1 "CUDA_VISIBLE_DEVICES" = none ∧
    envGet (commandEnvSetup [] "0").2 "CUDA_VISIBLE_DEVICES" = some "0" :=
  ⟨rfl, rfl⟩

/-- C8 amended: the child command invocation injects the selection by
building an explicit copy of the ambient environment with
`CUDA_VISIBLE_DEVICES` overridden and passing that mapping into the scoped
`subprocess.run` call; the ambient process environment itself is never
mutated, and every other variable reaches the child unchanged. -/
theorem child_env_copy_override (environ : List (String × String))
    (ids_string : String) :
    (commandEnvSetup environ ids_string).1 = environ ∧
    envGet (commandEnvSetup environ ids_string).2 "CUDA_VISIBLE_DEVICES"
      = some ids_string ∧
    ∀ key, key ≠ "CUDA_VISIBLE_DEVICES" →
      envGet (commandEnvSetup environ ids_string).2 key = envGet environ key :=
  ⟨rfl, envGet_envSet_same environ _ _,
   fun key hkey => envGet_envSet_other environ _ _ key hkey⟩

theorem child_env_copy_override_witness :
    (commandEnvSetup [("PATH", "p")] "0,1").1 = [("PATH", "p")] ∧
    envGet (commandEnvSetup [("PATH", "p")] "0,1").2 "CUDA_VISIBLE_DEVICES"
      = some "0,1" ∧
    envGet (commandEnvSetup [("PATH", "p")] "0,1").2 "PATH"
      = envGet [("PATH", "p")] "PATH" :=
  ⟨(child_env_copy_override [("PATH", "p")] "0,1").1,
   (child_env_copy_override [("PATH", "p")] "0,1").2.1,
   (child_env_copy_override [("PATH", "p")] "0,1").2.2 "PATH" (by decide)⟩
